import Mathlib

/-!
# Verification of the effect-dispatch engine (`src/effects/mod.rs`)

A shallow embedding of the keyboard-lighting effect worker: the dispatch of
`Refresh` / `Profile` / `CustomEffect` messages, the profile-apply procedure
(`Inner::set_profile`, lines 121-160), the custom-effect runner
(`Inner::custom_effect`, lines 162-183) and the stop-signal pair
(`StopSignals`, lines 185-199).

The worker's observable behaviour is modelled as a trace of events: keyboard
device-primitive calls, `thread::sleep` calls, worker-side writes to the stop
signal pair, and delegations to effect drivers.  Effect drivers and the
low-level `Keyboard` transport live outside the embedded slice, so a driver
invocation is recorded as a single opaque trace event.

External cancellation (another thread performing `store_true` on the shared
stop-signal pair) is modelled by an oracle `ext : Nat → Bool` indexed by the
runner's poll counter: `ext i = true` means a `store_true` landed between
poll `i - 1` and poll `i`.  The unbounded `'outer: loop` of the custom-effect
runner is given a fuel bound on the number of outer iterations; exhausting the
fuel is reported in the result (`ExitKind.fuelOut`), so divergence is the
statement that every fuel bound is exhausted.
-/

/-- `Direction` of a wave effect (field of `Profile`). -/
inductive Direction where
  | left
  | right
deriving DecidableEq, Repr

/-- The closed enumeration of effect kinds (`crate::enums::Effects`), as
matched in `Inner::set_profile` lines 129-158. -/
inductive Effects where
  | static
  | breath
  | smooth
  | wave
  | lightning
  | ambientLight (fps : Nat)
  | smoothWave
  | swipe
  | disco
  | christmas
  | fade
  | temperature
  | ripple
deriving DecidableEq, Repr

/-- A lighting profile (`crate::profile::Profile`): effect kind, a 12-byte RGB
array (bytes as `Nat`), speed, brightness and wave direction, exactly the
fields `Inner::set_profile` reads. -/
structure Profile where
  effect : Effects
  rgb_array : List Nat
  speed : Nat
  brightness : Nat
  direction : Direction
deriving DecidableEq, Repr

/-- Modelled from the spec: the default `Profile` (profile construction and
persistence are external collaborators, §6).  Its concrete field values are
irrelevant here; only its existence as the worker's initial `last_profile`
(line 73, `Profile::default()`) matters. -/
def Profile.default : Profile :=
  { effect := Effects.static
    rgb_array := List.replicate 12 0
    speed := 1
    brightness := 1
    direction := Direction.left }

/-- Hardware base effect modes (`keyboard_utils::BaseEffects`) as used by
`set_effect` in `Inner::set_profile`. -/
inductive BaseEffects where
  | static
  | breath
  | smooth
  | leftWave
  | rightWave
deriving DecidableEq, Repr

/-- A keyboard device-primitive call (the `Keyboard` handle's methods used by
the worker; the transport itself is an external collaborator, §6). -/
inductive DevCall where
  | setEffect (e : BaseEffects)
  | setSpeed (v : Nat)
  | setBrightness (v : Nat)
  | setColorsTo (rgb : List Nat)
  | transitionColorsTo (rgb : List Nat) (steps : Nat) (delay : Nat)
deriving DecidableEq, Repr

/-- Modelled from the spec: a delegation to one effect driver
(`Lightning::play`, `AmbientLight::play`, `Swipe::play`, `Disco::play`,
`Christmas::play`, `Fade::play`, `Temperature::play`, `Ripple::play`; their
bodies live in sibling modules outside the embedded slice).  Per §4.3 a driver
only issues device primitives and polls the stop flags — it never writes
them — so the whole invocation is recorded as one opaque event carrying the
arguments the worker passes at lines 146-157.  The `rand` generator argument
is omitted. -/
inductive DriverCall where
  | lightning (p : Profile)
  | ambientLight (fps : Nat)
  | swipe (p : Profile)
  | disco (p : Profile)
  | christmas
  | fade (p : Profile)
  | temperature
  | ripple (p : Profile)
deriving DecidableEq, Repr

/-- One observable event of the worker. -/
inductive Ev where
  | dev (c : DevCall)
  | sleep (ms : Nat)
  | store_false
  | store_true
  | driver (d : DriverCall)
deriving DecidableEq, Repr

/-- The device-call projection of a trace. -/
def devCallsOf : List Ev → List DevCall
  | [] => []
  | Ev.dev c :: rest => c :: devCallsOf rest
  | _ :: rest => devCallsOf rest

/-- The shared stop-signal pair (`StopSignals`, lines 185-189), one `Bool` per
atomic flag. -/
structure StopSignals where
  keyboard_stop_signal : Bool
  manager_stop_signal : Bool
deriving DecidableEq, Repr

/-- `StopSignals::store_true` (lines 192-195): set both flags. -/
def StopSignals.store_true (_ : StopSignals) : StopSignals :=
  { keyboard_stop_signal := true, manager_stop_signal := true }

/-- `StopSignals::store_false` (lines 196-199): clear both flags. -/
def StopSignals.store_false (_ : StopSignals) : StopSignals :=
  { keyboard_stop_signal := false, manager_stop_signal := false }

/-- The worker state relevant to dispatch (`InnerState`, lines 49-55): the stop
signals and the last applied profile.  The keyboard handle is represented by
the event trace, and the channel endpoints play no role inside a dispatch. -/
structure InnerState where
  stop_signals : StopSignals
  last_profile : Profile
deriving DecidableEq, Repr

/-- The worker state right after `EffectManager::new` (lines 59-74): both
stop flags start `false` and `last_profile` starts at `Profile::default()`. -/
def InnerState.init : InnerState :=
  { stop_signals := { keyboard_stop_signal := false, manager_stop_signal := false }
    last_profile := Profile.default }

/-- `EffectType` of a custom-effect step (`custom_effect::EffectType`):
`Set` or `Transition`, as branched on at line 169. -/
inductive EffectType where
  | set
  | transition
deriving DecidableEq, Repr

/-- One step of a custom effect (`custom_effect::EffectStep`), carrying the
fields read in `Inner::custom_effect` lines 166-177. -/
structure EffectStep where
  rgb_array : List Nat
  step_type : EffectType
  speed : Nat
  brightness : Nat
  steps : Nat
  delay_between_steps : Nat
  sleep : Nat
deriving DecidableEq, Repr

/-- A custom effect (`custom_effect::CustomEffect`): the ordered step list and
the `should_loop` flag. -/
structure CustomEffect where
  effect_steps : List EffectStep
  should_loop : Bool
deriving DecidableEq, Repr

/-- The color call of one step (lines 169-173): `set_colors_to` for `Set`,
`transition_colors_to` for `Transition`. -/
def stepColorCall (st : EffectStep) : DevCall :=
  match st.step_type with
  | EffectType.set => DevCall.setColorsTo st.rgb_array
  | EffectType.transition =>
      DevCall.transitionColorsTo st.rgb_array st.steps st.delay_between_steps

/-- The device calls of one step body (lines 167-173): `set_speed`,
`set_brightness`, then the color call. -/
def stepCalls (st : EffectStep) : List Ev :=
  [Ev.dev (DevCall.setSpeed st.speed), Ev.dev (DevCall.setBrightness st.brightness),
   Ev.dev (stepColorCall st)]

/-- A fully executed step: its device calls followed by its
`thread::sleep(step.sleep)` (line 177). -/
def fullStep (st : EffectStep) : List Ev :=
  stepCalls st ++ [Ev.sleep st.sleep]

/-- Expected trace of one complete, uncancelled pass over the step list. -/
def passTrace : List EffectStep → List Ev
  | [] => []
  | st :: rest => fullStep st ++ passTrace rest

/-- Expected trace of a pass cancelled at step index `k`: steps before `k` run
fully (calls and sleep), step `k` runs all its device calls, then the poll
observes the stop flag and the run aborts before step `k`'s sleep. -/
def abortTrace : List EffectStep → Nat → List Ev
  | [], _ => []
  | st :: _, 0 => stepCalls st
  | st :: rest, k + 1 => fullStep st ++ abortTrace rest k

/-- `n` complete passes over the step list. -/
def repeatTrace : Nat → List EffectStep → List Ev
  | 0, _ => []
  | n + 1, steps => passTrace steps ++ repeatTrace n steps

/-- The stop flags as visible at poll number `i`: if the external oracle says
a `store_true` landed before this poll, both flags read `true`. -/
def pollFlags (ext : Nat → Bool) (i : Nat) (fl : StopSignals) : StopSignals :=
  if ext i then fl.store_true else fl

/-- Result of the inner `for step in ...` loop of `Inner::custom_effect`:
final flags, emitted trace, next poll number, and whether the
`break 'outer` at line 175 fired. -/
structure StepsOut where
  flags : StopSignals
  trace : List Ev
  next : Nat
  aborted : Bool
deriving DecidableEq, Repr

/-- The inner `for step in custom_effect.effect_steps` loop (lines 166-178):
per step, `set_speed`, `set_brightness`, the color call, then a load of
`manager_stop_signal` (line 174) — `break 'outer` if it reads `true` —
else `thread::sleep(step.sleep)` and the next step. -/
def runSteps (ext : Nat → Bool) : List EffectStep → StopSignals → Nat → StepsOut
  | [], fl, i => { flags := fl, trace := [], next := i, aborted := false }
  | st :: rest, fl, i =>
      if (pollFlags ext i fl).manager_stop_signal then
        { flags := pollFlags ext i fl, trace := stepCalls st, next := i + 1, aborted := true }
      else
        let r := runSteps ext rest (pollFlags ext i fl) (i + 1)
        { flags := r.flags
          trace := stepCalls st ++ Ev.sleep st.sleep :: r.trace
          next := r.next
          aborted := r.aborted }

/-- How a run of the custom-effect body (or a dispatch) ended:
returned normally, returned through the cancellation `break 'outer`, or the
fuel bound on outer iterations ran out (the code would still be looping). -/
inductive ExitKind where
  | natural
  | cancelled
  | fuelOut
deriving DecidableEq, Repr

/-- Result of the `'outer: loop`: final flags, trace, exit kind. -/
structure LoopOut where
  flags : StopSignals
  trace : List Ev
  exit : ExitKind
deriving DecidableEq, Repr

/-- The `'outer: loop` of `Inner::custom_effect` (lines 165-182): run one pass
over the steps; if the pass hit `break 'outer` the run is over (cancelled);
otherwise `if !custom_effect.should_loop { break }` (lines 179-181), else
another pass.  `fuel` bounds the number of outer iterations. -/
def ceLoop (ext : Nat → Bool) (ce : CustomEffect) : StopSignals → Nat → Nat → LoopOut
  | fl, _, 0 => { flags := fl, trace := [], exit := ExitKind.fuelOut }
  | fl, i, fuel + 1 =>
      let r := runSteps ext ce.effect_steps fl i
      if r.aborted then
        { flags := r.flags, trace := r.trace, exit := ExitKind.cancelled }
      else if ce.should_loop then
        let rest := ceLoop ext ce r.flags r.next fuel
        { flags := rest.flags, trace := r.trace ++ rest.trace, exit := rest.exit }
      else
        { flags := r.flags, trace := r.trace, exit := ExitKind.natural }

/-- Result of one dispatched command: the worker state at return, the event
trace, and how the run ended. -/
structure RunOut where
  state : InnerState
  trace : List Ev
  exit : ExitKind
deriving DecidableEq, Repr

/-- `Inner::custom_effect` (lines 162-183): `stop_signals.store_false()` at
entry (line 163), then the `'outer: loop`.  Nothing inside the loop writes the
flags, so on a cancelled exit whatever `store_true` was observed is left in
place. -/
def InnerState.custom_effect (s : InnerState) (ce : CustomEffect) (ext : Nat → Bool) (fuel : Nat) :
    RunOut :=
  let r := ceLoop ext ce s.stop_signals.store_false 0 fuel
  { state := { s with stop_signals := r.flags }
    trace := Ev.store_false :: r.trace
    exit := r.exit }

/-- Canonical RGB palette forced for `Effects::SmoothWave` (line 149). -/
def smoothWaveRgb : List Nat :=
  [255, 0, 0, 0, 255, 0, 0, 0, 255, 255, 0, 255]

/-- The `match profile.effect` branch of `Inner::set_profile`
(lines 129-158), as the events it emits.  For `SmoothWave` the local copy of
the profile has its `rgb_array` overwritten before the `Swipe::play`
delegation (lines 148-151). -/
def profileBranch (p : Profile) : List Ev :=
  match p.effect with
  | Effects.static =>
      [Ev.dev (DevCall.setColorsTo p.rgb_array), Ev.dev (DevCall.setEffect BaseEffects.static)]
  | Effects.breath =>
      [Ev.dev (DevCall.setColorsTo p.rgb_array), Ev.dev (DevCall.setEffect BaseEffects.breath)]
  | Effects.smooth => [Ev.dev (DevCall.setEffect BaseEffects.smooth)]
  | Effects.wave =>
      match p.direction with
      | Direction.left => [Ev.dev (DevCall.setEffect BaseEffects.leftWave)]
      | Direction.right => [Ev.dev (DevCall.setEffect BaseEffects.rightWave)]
  | Effects.lightning => [Ev.driver (DriverCall.lightning p)]
  | Effects.ambientLight fps => [Ev.driver (DriverCall.ambientLight fps)]
  | Effects.smoothWave =>
      [Ev.driver (DriverCall.swipe { p with rgb_array := smoothWaveRgb })]
  | Effects.swipe => [Ev.driver (DriverCall.swipe p)]
  | Effects.disco => [Ev.driver (DriverCall.disco p)]
  | Effects.christmas => [Ev.driver DriverCall.christmas]
  | Effects.fade => [Ev.driver (DriverCall.fade p)]
  | Effects.temperature => [Ev.driver DriverCall.temperature]
  | Effects.ripple => [Ev.driver (DriverCall.ripple p)]

/-- `Inner::set_profile` (lines 121-160): `store_false` at entry (line 122);
unconditional base parameters `set_effect(Static)`, `set_speed`,
`set_brightness` (lines 125-127); the effect-kind branch; `store_false` again
at exit (line 159).  `last_profile` is not touched here (the parameter is a
by-value copy). -/
def InnerState.set_profile (s : InnerState) (p : Profile) : RunOut :=
  { state := { s with stop_signals := s.stop_signals.store_false.store_false }
    trace := Ev.store_false
        :: Ev.dev (DevCall.setEffect BaseEffects.static)
        :: Ev.dev (DevCall.setSpeed p.speed)
        :: Ev.dev (DevCall.setBrightness p.brightness)
        :: (profileBranch p ++ [Ev.store_false])
    exit := ExitKind.natural }

/-- `Inner::refresh` (lines 117-119): re-apply `last_profile`. -/
def InnerState.refresh (s : InnerState) : RunOut :=
  InnerState.set_profile s s.last_profile

/-- The channel message (`crate::enums::Message`, matched at lines 78-90). -/
inductive Message where
  | refresh
  | profile (p : Profile)
  | customEffect (e : CustomEffect)
  | exit
deriving DecidableEq, Repr

/-- One iteration of the worker loop on a dequeued message (lines 78-90):
`Refresh` → `refresh()`; `Profile` → record `last_profile`, then
`set_profile`; `CustomEffect` → `custom_effect`; `Exit` → `break` (no run:
`none`). -/
def dispatch (s : InnerState) (ext : Nat → Bool) (fuel : Nat) : Message → Option RunOut
  | Message.refresh => some (InnerState.refresh s)
  | Message.profile p => some (InnerState.set_profile { s with last_profile := p } p)
  | Message.customEffect ce => some (InnerState.custom_effect s ce ext fuel)
  | Message.exit => none

/-- A custom-effect run terminates (under oracle `ext`) iff some fuel bound on
outer iterations is not exhausted. -/
def CETerminates (s : InnerState) (ce : CustomEffect) (ext : Nat → Bool) : Prop :=
  ∃ fuel, (InnerState.custom_effect s ce ext fuel).exit ≠ ExitKind.fuelOut

/-- Concrete inputs used as evaluation points. -/
def extNever : Nat → Bool := fun _ => false

/-- Oracle raising the stop signal before the very first poll. -/
def extAtOnce : Nat → Bool := fun i => i == 0

/-- Oracle raising the stop signal before poll 1 (i.e. during step 1). -/
def extAtOne : Nat → Bool := fun i => i == 1

/-- A concrete static-red profile. -/
def staticRed : Profile :=
  { effect := Effects.static
    rgb_array := [255, 0, 0, 0, 0, 0, 0, 0, 0, 0, 0, 0]
    speed := 1
    brightness := 100
    direction := Direction.left }

/-- A concrete smooth-wave profile with caller-supplied colors that differ
from the forced palette. -/
def swProfile : Profile :=
  { effect := Effects.smoothWave
    rgb_array := [7, 7, 7, 7, 7, 7, 7, 7, 7, 7, 7, 7]
    speed := 2
    brightness := 50
    direction := Direction.right }

/-- A concrete two-step custom effect. -/
def ceTwoSteps : CustomEffect :=
  { effect_steps :=
      [{ rgb_array := [1, 2, 3, 4, 5, 6, 7, 8, 9, 10, 11, 12]
         step_type := EffectType.set
         speed := 1, brightness := 10, steps := 0, delay_between_steps := 0, sleep := 5 },
       { rgb_array := [12, 11, 10, 9, 8, 7, 6, 5, 4, 3, 2, 1]
         step_type := EffectType.transition
         speed := 2, brightness := 20, steps := 30, delay_between_steps := 4, sleep := 6 }]
    should_loop := false }

/-- The empty, looping custom effect (the degenerate input of §9). -/
def ceEmptyLoop : CustomEffect :=
  { effect_steps := [], should_loop := true }

/-! ## Helper lemmas -/

lemma runSteps_nil (ext : Nat → Bool) (fl : StopSignals) (i : Nat) :
    runSteps ext [] fl i = { flags := fl, trace := [], next := i, aborted := false } := rfl

lemma runSteps_cons (ext : Nat → Bool) (st : EffectStep) (rest : List EffectStep)
    (fl : StopSignals) (i : Nat) :
    runSteps ext (st :: rest) fl i =
      if (pollFlags ext i fl).manager_stop_signal then
        { flags := pollFlags ext i fl, trace := stepCalls st, next := i + 1, aborted := true }
      else
        let r := runSteps ext rest (pollFlags ext i fl) (i + 1)
        { flags := r.flags
          trace := stepCalls st ++ Ev.sleep st.sleep :: r.trace
          next := r.next
          aborted := r.aborted } := rfl

lemma ceLoop_zero (ext : Nat → Bool) (ce : CustomEffect) (fl : StopSignals) (i : Nat) :
    ceLoop ext ce fl i 0 = { flags := fl, trace := [], exit := ExitKind.fuelOut } := rfl

lemma ceLoop_succ (ext : Nat → Bool) (ce : CustomEffect) (fl : StopSignals) (i fuel : Nat) :
    ceLoop ext ce fl i (fuel + 1) =
      (let r := runSteps ext ce.effect_steps fl i
       if r.aborted then
         { flags := r.flags, trace := r.trace, exit := ExitKind.cancelled }
       else if ce.should_loop then
         let rest := ceLoop ext ce r.flags r.next fuel
         { flags := rest.flags, trace := r.trace ++ rest.trace, exit := rest.exit }
       else
         { flags := r.flags, trace := r.trace, exit := ExitKind.natural }) := rfl

lemma runSteps_trace_of_not_aborted (ext : Nat → Bool) :
    ∀ (steps : List EffectStep) (fl : StopSignals) (i : Nat),
      (runSteps ext steps fl i).aborted = false →
      (runSteps ext steps fl i).trace = passTrace steps := by
  intro steps
  induction steps with
  | nil => intro fl i _; rfl
  | cons st rest ih =>
      intro fl i h
      rw [runSteps_cons] at h ⊢
      by_cases hp : (pollFlags ext i fl).manager_stop_signal
      · simp [hp] at h
      · simp only [hp, if_false] at h ⊢
        rw [ih _ _ h]
        simp [passTrace, fullStep, List.append_assoc]

lemma runSteps_trace_of_aborted (ext : Nat → Bool) :
    ∀ (steps : List EffectStep) (fl : StopSignals) (i : Nat),
      (runSteps ext steps fl i).aborted = true →
      ∃ k, k < steps.length ∧ (runSteps ext steps fl i).trace = abortTrace steps k := by
  intro steps
  induction steps with
  | nil => intro fl i h; simp [runSteps_nil] at h
  | cons st rest ih =>
      intro fl i h
      rw [runSteps_cons] at h ⊢
      by_cases hp : (pollFlags ext i fl).manager_stop_signal
      · refine ⟨0, by simp, ?_⟩
        simp [hp, abortTrace]
      · simp only [hp, if_false] at h ⊢
        obtain ⟨k, hk, ht⟩ := ih _ _ h
        refine ⟨k + 1, by simpa using hk, ?_⟩
        rw [ht]
        simp [abortTrace, fullStep, List.append_assoc]

lemma StopSignals.both_true (fl : StopSignals)
    (h : fl.keyboard_stop_signal = fl.manager_stop_signal)
    (hm : fl.manager_stop_signal = true) :
    fl = { keyboard_stop_signal := true, manager_stop_signal := true } := by
  cases fl
  simp_all

lemma pollFlags_inv (ext : Nat → Bool) (i : Nat) (fl : StopSignals)
    (h : fl.keyboard_stop_signal = fl.manager_stop_signal) :
    (pollFlags ext i fl).keyboard_stop_signal = (pollFlags ext i fl).manager_stop_signal := by
  unfold pollFlags
  split
  · rfl
  · exact h

lemma runSteps_flags_inv (ext : Nat → Bool) :
    ∀ (steps : List EffectStep) (fl : StopSignals) (i : Nat),
      fl.keyboard_stop_signal = fl.manager_stop_signal →
      ((runSteps ext steps fl i).flags.keyboard_stop_signal
          = (runSteps ext steps fl i).flags.manager_stop_signal)
      ∧ ((runSteps ext steps fl i).aborted = true →
          (runSteps ext steps fl i).flags
            = { keyboard_stop_signal := true, manager_stop_signal := true }) := by
  intro steps
  induction steps with
  | nil => intro fl i h; exact ⟨h, by simp [runSteps_nil]⟩
  | cons st rest ih =>
      intro fl i h
      rw [runSteps_cons]
      by_cases hp : (pollFlags ext i fl).manager_stop_signal
      · simp only [hp, if_true]
        exact ⟨by rw [pollFlags_inv ext i fl h, hp],
               fun _ => StopSignals.both_true _ (pollFlags_inv ext i fl h) hp⟩
      · simp only [hp, if_false]
        exact ih _ _ (pollFlags_inv ext i fl h)

lemma stepCalls_no_flag_events (st : EffectStep) :
    Ev.store_false ∉ stepCalls st ∧ Ev.store_true ∉ stepCalls st := by
  constructor <;> simp [stepCalls]

lemma runSteps_no_flag_events (ext : Nat → Bool) :
    ∀ (steps : List EffectStep) (fl : StopSignals) (i : Nat),
      Ev.store_false ∉ (runSteps ext steps fl i).trace
      ∧ Ev.store_true ∉ (runSteps ext steps fl i).trace := by
  intro steps
  induction steps with
  | nil => intro fl i; simp [runSteps_nil]
  | cons st rest ih =>
      intro fl i
      rw [runSteps_cons]
      by_cases hp : (pollFlags ext i fl).manager_stop_signal
      · simpa [hp] using stepCalls_no_flag_events st
      · simp only [hp, if_false]
        have h1 := stepCalls_no_flag_events st
        have h2 := ih (pollFlags ext i fl) (i + 1)
        constructor <;> simp [h1.1, h1.2, h2.1, h2.2]

lemma ceLoop_cancelled_trace (ext : Nat → Bool) (ce : CustomEffect) :
    ∀ (fuel : Nat) (fl : StopSignals) (i : Nat),
      (ceLoop ext ce fl i fuel).exit = ExitKind.cancelled →
      ∃ n k, k < ce.effect_steps.length ∧
        (ceLoop ext ce fl i fuel).trace
          = repeatTrace n ce.effect_steps ++ abortTrace ce.effect_steps k := by
  intro fuel
  induction fuel with
  | zero => intro fl i h; simp [ceLoop_zero] at h
  | succ fuel ih =>
      intro fl i h
      rw [ceLoop_succ] at h ⊢
      by_cases ha : (runSteps ext ce.effect_steps fl i).aborted
      · simp only [ha, if_true] at h ⊢
        obtain ⟨k, hk, ht⟩ := runSteps_trace_of_aborted ext ce.effect_steps fl i ha
        exact ⟨0, k, hk, by simp [repeatTrace, ht]⟩
      · simp only [ha, if_false] at h ⊢
        by_cases hl : ce.should_loop
        · simp only [hl, if_true] at h ⊢
          obtain ⟨n, k, hk, ht⟩ := ih _ _ h
          refine ⟨n + 1, k, hk, ?_⟩
          rw [ht, runSteps_trace_of_not_aborted ext ce.effect_steps fl i (by simpa using ha)]
          simp [repeatTrace, List.append_assoc]
        · simp [hl] at h

lemma ceLoop_cancelled_flags (ext : Nat → Bool) (ce : CustomEffect) :
    ∀ (fuel : Nat) (fl : StopSignals) (i : Nat),
      fl.keyboard_stop_signal = fl.manager_stop_signal →
      (ceLoop ext ce fl i fuel).exit = ExitKind.cancelled →
      (ceLoop ext ce fl i fuel).flags
        = { keyboard_stop_signal := true, manager_stop_signal := true } := by
  intro fuel
  induction fuel with
  | zero => intro fl i _ h; simp [ceLoop_zero] at h
  | succ fuel ih =>
      intro fl i hinv h
      rw [ceLoop_succ] at h ⊢
      by_cases ha : (runSteps ext ce.effect_steps fl i).aborted
      · simp only [ha, if_true]
        exact (runSteps_flags_inv ext ce.effect_steps fl i hinv).2 ha
      · simp only [ha, if_false] at h ⊢
        by_cases hl : ce.should_loop
        · simp only [hl, if_true] at h ⊢
          exact ih _ _ (runSteps_flags_inv ext ce.effect_steps fl i hinv).1 h
        · simp [hl] at h

lemma ceLoop_no_flag_events (ext : Nat → Bool) (ce : CustomEffect) :
    ∀ (fuel : Nat) (fl : StopSignals) (i : Nat),
      Ev.store_false ∉ (ceLoop ext ce fl i fuel).trace
      ∧ Ev.store_true ∉ (ceLoop ext ce fl i fuel).trace := by
  intro fuel
  induction fuel with
  | zero => intro fl i; simp [ceLoop_zero]
  | succ fuel ih =>
      intro fl i
      rw [ceLoop_succ]
      have hr := runSteps_no_flag_events ext ce.effect_steps fl i
      by_cases ha : (runSteps ext ce.effect_steps fl i).aborted
      · simpa [ha] using hr
      · simp only [ha, if_false]
        by_cases hl : ce.should_loop
        · simp only [hl, if_true]
          have hrest := ih (runSteps ext ce.effect_steps fl i).flags
            (runSteps ext ce.effect_steps fl i).next
          constructor <;> simp [hr.1, hr.2, hrest.1, hrest.2]
        · simpa [hl] using hr

lemma ceLoop_empty_steps_loop (ext : Nat → Bool) (ce : CustomEffect)
    (h1 : ce.effect_steps = []) (h2 : ce.should_loop = true) :
    ∀ (fuel : Nat) (fl : StopSignals) (i : Nat),
      ceLoop ext ce fl i fuel = { flags := fl, trace := [], exit := ExitKind.fuelOut } := by
  intro fuel
  induction fuel with
  | zero => intro fl i; rfl
  | succ fuel ih =>
      intro fl i
      rw [ceLoop_succ, h1, runSteps_nil]
      simp [h2, ih fl i]

lemma runSteps_of_never (ext : Nat → Bool) (hext : ∀ j, ext j = false) :
    ∀ (steps : List EffectStep) (i : Nat),
      runSteps ext steps { keyboard_stop_signal := false, manager_stop_signal := false } i
        = { flags := { keyboard_stop_signal := false, manager_stop_signal := false }
            trace := passTrace steps
            next := i + steps.length
            aborted := false } := by
  intro steps
  induction steps with
  | nil => intro i; simp [runSteps_nil, passTrace]
  | cons st rest ih =>
      intro i
      rw [runSteps_cons]
      have hp : pollFlags ext i { keyboard_stop_signal := false, manager_stop_signal := false }
          = { keyboard_stop_signal := false, manager_stop_signal := false } := by
        simp [pollFlags, hext i]
      rw [hp]
      simp only [ih (i + 1)]
      simp [passTrace, fullStep, List.append_assoc, List.length_cons]
      omega

lemma profileBranch_no_flag_events (p : Profile) :
    Ev.store_false ∉ profileBranch p ∧ Ev.store_true ∉ profileBranch p := by
  rcases p with ⟨eff, rgb, sp, br, dir⟩
  cases eff <;> cases dir <;> constructor <;> simp [profileBranch]

lemma set_profile_trace_eq (s : InnerState) (p : Profile) :
    (InnerState.set_profile s p).trace
      = Ev.store_false
          :: Ev.dev (DevCall.setEffect BaseEffects.static)
          :: Ev.dev (DevCall.setSpeed p.speed)
          :: Ev.dev (DevCall.setBrightness p.brightness)
          :: (profileBranch p ++ [Ev.store_false]) := rfl

lemma dispatch_trace_head (s : InnerState) (ext : Nat → Bool) (fuel : Nat)
    (m : Message) (r : RunOut) (h : dispatch s ext fuel m = some r) :
    r.trace.head? = some Ev.store_false := by
  cases m with
  | refresh =>
      simp only [dispatch, Option.some.injEq] at h
      rw [← h]; rfl
  | profile p =>
      simp only [dispatch, Option.some.injEq] at h
      rw [← h]; rfl
  | customEffect ce =>
      simp only [dispatch, Option.some.injEq] at h
      rw [← h]; rfl
  | exit => simp [dispatch] at h

lemma dispatch_no_store_true (s : InnerState) (ext : Nat → Bool) (fuel : Nat)
    (m : Message) (r : RunOut) (h : dispatch s ext fuel m = some r) :
    Ev.store_true ∉ r.trace := by
  cases m with
  | refresh =>
      simp only [dispatch, Option.some.injEq] at h
      rw [← h, InnerState.refresh, set_profile_trace_eq]
      simp [(profileBranch_no_flag_events s.last_profile).2]
  | profile p =>
      simp only [dispatch, Option.some.injEq] at h
      rw [← h, set_profile_trace_eq]
      simp [(profileBranch_no_flag_events p).2]
  | customEffect ce =>
      simp only [dispatch, Option.some.injEq] at h
      rw [← h, InnerState.custom_effect]
      simp [(ceLoop_no_flag_events ext ce fuel (s.stop_signals.store_false) 0).2]
  | exit => simp [dispatch] at h

/-! ## Claim theorems -/

/-- C1 counterexample: dispatching a concrete `Profile` command produces a run
whose trace contains no `store_true` at all — the worker never raises the stop
signal pair before (or while) executing the new command's effect body, so the
claim "a store_true on the stop signals happens before the new command's
effect body runs" is false on this code. -/
theorem c1_counterexample :
    dispatch InnerState.init extNever 1 (Message.profile staticRed)
        = some (InnerState.set_profile { InnerState.init with last_profile := staticRed } staticRed)
    ∧ Ev.store_true
        ∉ (InnerState.set_profile { InnerState.init with last_profile := staticRed } staticRed).trace :=
  ⟨rfl, by decide⟩

/-- C1 (amended): for every command the worker dequeues (Refresh, Profile, or
CustomEffect), the dispatched effect body begins by clearing both stop signals
(`store_false` is the first event of its trace), and no `store_true` on the
stop signals ever happens in the dispatch procedure — raising the stop signal
is left to the producers outside this code. -/
theorem c1_dispatch_clears_not_raises (s : InnerState) (ext : Nat → Bool) (fuel : Nat)
    (m : Message) (r : RunOut) (h : dispatch s ext fuel m = some r) :
    r.trace.head? = some Ev.store_false ∧ Ev.store_true ∉ r.trace :=
  ⟨dispatch_trace_head s ext fuel m r h, dispatch_no_store_true s ext fuel m r h⟩

/-- C1 witness: the amended theorem evaluated on a concrete `Refresh`
dispatch. -/
theorem c1_witness :
    dispatch InnerState.init extNever 1 Message.refresh
        = some (InnerState.refresh InnerState.init)
    ∧ ((InnerState.refresh InnerState.init).trace.head? = some Ev.store_false
        ∧ Ev.store_true ∉ (InnerState.refresh InnerState.init).trace) :=
  ⟨rfl, c1_dispatch_clears_not_raises InnerState.init extNever 1 Message.refresh
          (InnerState.refresh InnerState.init) rfl⟩

/-- C2: if a `CustomEffect` run exits through the cancellation branch (the
manager stop flag was observed `true` after applying a step), the whole run
aborts at that step: the trace is some number of complete passes, then the
cancelled pass in which every step before the observation ran fully, the step
at index `k` ran all of its device calls (speed, brightness, colors or the
whole transition) but not its sleep, and nothing follows — the stop flag is
polled only between whole steps. -/
theorem c2_cancelled_run_aborts_at_step (s : InnerState) (ce : CustomEffect)
    (ext : Nat → Bool) (fuel : Nat)
    (h : (InnerState.custom_effect s ce ext fuel).exit = ExitKind.cancelled) :
    ∃ n k, k < ce.effect_steps.length ∧
      (InnerState.custom_effect s ce ext fuel).trace
        = Ev.store_false :: (repeatTrace n ce.effect_steps ++ abortTrace ce.effect_steps k) := by
  have h' : (ceLoop ext ce s.stop_signals.store_false 0 fuel).exit = ExitKind.cancelled := h
  obtain ⟨n, k, hk, ht⟩ := ceLoop_cancelled_trace ext ce fuel s.stop_signals.store_false 0 h'
  exact ⟨n, k, hk, by rw [InnerState.custom_effect]; simp [ht]⟩

/-- C2 witness: a concrete run cancelled before the first poll. -/
theorem c2_witness :
    (InnerState.custom_effect InnerState.init ceTwoSteps extAtOnce 1).exit = ExitKind.cancelled
    ∧ ∃ n k, k < ceTwoSteps.effect_steps.length ∧
        (InnerState.custom_effect InnerState.init ceTwoSteps extAtOnce 1).trace
          = Ev.store_false
              :: (repeatTrace n ceTwoSteps.effect_steps ++ abortTrace ceTwoSteps.effect_steps k) :=
  ⟨by decide,
   c2_cancelled_run_aborts_at_step InnerState.init ceTwoSteps extAtOnce 1 (by decide)⟩

/-- C3: dispatching `Refresh` is exactly re-issuing the last `Profile`
command: both dispatches are the same single application of the profile-apply
procedure to `last_profile` (same device-call trace, same final state); no
dispatch of `Refresh` or `CustomEffect` changes `last_profile`; and when
`last_profile` is still `Profile.default` (no `Profile` ever dispatched),
`Refresh` applies the default profile exactly once. -/
theorem c3_refresh_replays_last_profile (s : InnerState) (ext : Nat → Bool) (fuel : Nat) :
    dispatch s ext fuel Message.refresh = dispatch s ext fuel (Message.profile s.last_profile)
    ∧ dispatch s ext fuel Message.refresh = some (InnerState.set_profile s s.last_profile)
    ∧ (∀ ce, (InnerState.custom_effect s ce ext fuel).state.last_profile = s.last_profile)
    ∧ (InnerState.refresh s).state.last_profile = s.last_profile
    ∧ (s.last_profile = Profile.default →
        dispatch s ext fuel Message.refresh = some (InnerState.set_profile s Profile.default)) := by
  refine ⟨rfl, rfl, fun ce => rfl, rfl, fun h => ?_⟩
  simp [dispatch, InnerState.refresh, h]

/-- C3 witness: from the initial worker state (no `Profile` ever dispatched),
`Refresh` applies `Profile.default` once. -/
theorem c3_witness :
    InnerState.init.last_profile = Profile.default
    ∧ dispatch InnerState.init extNever 1 Message.refresh
        = some (InnerState.set_profile InnerState.init Profile.default) :=
  ⟨rfl, (c3_refresh_replays_last_profile InnerState.init extNever 1).2.2.2.2 rfl⟩

/-- C4: dispatching `Profile{effect: Static, rgb_array, brightness, speed}`
produces exactly the device-call sequence `set_effect(Static)`,
`set_speed(speed)`, `set_brightness(brightness)`, `set_colors_to(rgb_array)`,
`set_effect(Static)`, in that order, and delegates to no effect driver. -/
theorem c4_static_profile_device_calls (s : InnerState) (rgb : List Nat)
    (sp br : Nat) (dir : Direction) (ext : Nat → Bool) (fuel : Nat) :
    dispatch s ext fuel (Message.profile
        { effect := Effects.static, rgb_array := rgb, speed := sp, brightness := br,
          direction := dir })
      = some (InnerState.set_profile
          { s with last_profile :=
              { effect := Effects.static, rgb_array := rgb, speed := sp, brightness := br,
                direction := dir } }
          { effect := Effects.static, rgb_array := rgb, speed := sp, brightness := br,
            direction := dir })
    ∧ devCallsOf (InnerState.set_profile
          { s with last_profile :=
              { effect := Effects.static, rgb_array := rgb, speed := sp, brightness := br,
                direction := dir } }
          { effect := Effects.static, rgb_array := rgb, speed := sp, brightness := br,
            direction := dir }).trace
      = [DevCall.setEffect BaseEffects.static, DevCall.setSpeed sp, DevCall.setBrightness br,
         DevCall.setColorsTo rgb, DevCall.setEffect BaseEffects.static]
    ∧ ∀ d, Ev.driver d ∉ (InnerState.set_profile
          { s with last_profile :=
              { effect := Effects.static, rgb_array := rgb, speed := sp, brightness := br,
                direction := dir } }
          { effect := Effects.static, rgb_array := rgb, speed := sp, brightness := br,
            direction := dir }).trace := by
  refine ⟨rfl, rfl, fun d => ?_⟩
  rw [set_profile_trace_eq]
  simp [profileBranch, devCallsOf]

/-- C5: for every `Profile` whose effect is `SmoothWave`, the profile-apply
procedure overwrites its local copy's `rgb_array` with the fixed palette
`[255, 0, 0, 0, 255, 0, 0, 0, 255, 255, 0, 255]` before delegating to the
`Swipe` driver, regardless of the caller-supplied colors: the whole dispatch
is the base calls followed by a single Swipe delegation carrying the forced
palette. -/
theorem c5_smoothwave_forces_palette (s : InnerState) (p : Profile)
    (ext : Nat → Bool) (fuel : Nat) (h : p.effect = Effects.smoothWave) :
    dispatch s ext fuel (Message.profile p)
      = some { state := { stop_signals := { keyboard_stop_signal := false,
                                            manager_stop_signal := false }
                          last_profile := p }
               trace := [Ev.store_false,
                         Ev.dev (DevCall.setEffect BaseEffects.static),
                         Ev.dev (DevCall.setSpeed p.speed),
                         Ev.dev (DevCall.setBrightness p.brightness),
                         Ev.driver (DriverCall.swipe { p with rgb_array := smoothWaveRgb }),
                         Ev.store_false]
               exit := ExitKind.natural } := by
  simp [dispatch, InnerState.set_profile, profileBranch, h, StopSignals.store_false]

/-- C5 witness: a concrete `SmoothWave` profile whose caller-supplied colors
are all 7 still delegates to Swipe with the forced palette. -/
theorem c5_witness :
    swProfile.effect = Effects.smoothWave
    ∧ dispatch InnerState.init extNever 1 (Message.profile swProfile)
        = some { state := { stop_signals := { keyboard_stop_signal := false,
                                              manager_stop_signal := false }
                            last_profile := swProfile }
                 trace := [Ev.store_false,
                           Ev.dev (DevCall.setEffect BaseEffects.static),
                           Ev.dev (DevCall.setSpeed swProfile.speed),
                           Ev.dev (DevCall.setBrightness swProfile.brightness),
                           Ev.driver (DriverCall.swipe { swProfile with rgb_array := smoothWaveRgb }),
                           Ev.store_false]
                 exit := ExitKind.natural } :=
  ⟨rfl, c5_smoothwave_forces_palette InnerState.init swProfile extNever 1 rfl⟩

/-- C6: a `CustomEffect` with `should_loop = false` and a non-empty step list,
run with the stop signal never raised, applies each step exactly once in list
order — per step: `set_speed`, `set_brightness`, then `set_colors_to` (Set) or
`transition_colors_to` (Transition), then the step's sleep — and then returns
normally with both stop flags clear. -/
theorem c6_noloop_runs_steps_once (s : InnerState) (ce : CustomEffect)
    (ext : Nat → Bool) (fuel : Nat) (hext : ∀ i, ext i = false)
    (hl : ce.should_loop = false) (_hne : ce.effect_steps ≠ []) (hf : 0 < fuel) :
    InnerState.custom_effect s ce ext fuel
      = { state := { s with stop_signals := { keyboard_stop_signal := false,
                                              manager_stop_signal := false } }
          trace := Ev.store_false :: passTrace ce.effect_steps
          exit := ExitKind.natural } := by
  obtain ⟨f, rfl⟩ : ∃ f, fuel = f + 1 := ⟨fuel - 1, by omega⟩
  rw [InnerState.custom_effect]
  have hsf : s.stop_signals.store_false
      = { keyboard_stop_signal := false, manager_stop_signal := false } := rfl
  rw [hsf, ceLoop_succ, runSteps_of_never ext hext]
  simp [hl]

/-- C6 witness: the concrete two-step custom effect under the never-raised
oracle. -/
theorem c6_witness :
    (∀ i, extNever i = false) ∧ ceTwoSteps.should_loop = false
    ∧ ceTwoSteps.effect_steps ≠ [] ∧ 0 < 1
    ∧ InnerState.custom_effect InnerState.init ceTwoSteps extNever 1
        = { state := { InnerState.init with
                         stop_signals := { keyboard_stop_signal := false,
                                           manager_stop_signal := false } }
            trace := Ev.store_false :: passTrace ceTwoSteps.effect_steps
            exit := ExitKind.natural } :=
  ⟨fun _ => rfl, rfl, by decide, by decide,
   c6_noloop_runs_steps_once InnerState.init ceTwoSteps extNever 1
     (fun _ => rfl) rfl (by decide) (by decide)⟩

/-- C7: on every `Profile` dispatch, the profile-apply procedure
unconditionally emits `set_effect(Static)`, `set_speed`, `set_brightness`
before the effect-kind branch; the branch itself never writes the stop
signals; the final event is the exit `store_false`; and both stop flags are
`false` in the state `set_profile` returns. -/
theorem c7_base_params_then_clear (s : InnerState) (p : Profile) :
    ∃ branchEvs : List Ev,
      (InnerState.set_profile s p).trace
          = Ev.store_false
              :: Ev.dev (DevCall.setEffect BaseEffects.static)
              :: Ev.dev (DevCall.setSpeed p.speed)
              :: Ev.dev (DevCall.setBrightness p.brightness)
              :: (branchEvs ++ [Ev.store_false])
      ∧ Ev.store_false ∉ branchEvs ∧ Ev.store_true ∉ branchEvs
      ∧ (InnerState.set_profile s p).state.stop_signals
          = { keyboard_stop_signal := false, manager_stop_signal := false } :=
  ⟨profileBranch p, set_profile_trace_eq s p,
   (profileBranch_no_flag_events p).1, (profileBranch_no_flag_events p).2, rfl⟩

/-- C8 counterexample: running the empty-step `CustomEffect` with
`should_loop = true` never terminates — every fuel bound on the outer loop is
exhausted, so the claim that the runner returns control to the worker is false
for this input. -/
theorem c8_counterexample : ¬ CETerminates InnerState.init ceEmptyLoop extNever := by
  rintro ⟨fuel, h⟩
  apply h
  show (ceLoop extNever ceEmptyLoop
          (InnerState.init.stop_signals.store_false) 0 fuel).exit = ExitKind.fuelOut
  rw [ceLoop_empty_steps_loop extNever ceEmptyLoop rfl rfl fuel]

/-- C8 (amended): running a `CustomEffect` whose step list is empty applies no
step and terminates immediately when `should_loop = false`; but when
`should_loop = true` the runner never returns — the outer loop spins forever
(every fuel bound is exhausted) while emitting no device calls. -/
theorem c8_empty_steps (s : InnerState) (ext : Nat → Bool) (fuel : Nat) :
    InnerState.custom_effect s { effect_steps := [], should_loop := false } ext 1
      = { state := { s with stop_signals := { keyboard_stop_signal := false,
                                              manager_stop_signal := false } }
          trace := [Ev.store_false]
          exit := ExitKind.natural }
    ∧ InnerState.custom_effect s { effect_steps := [], should_loop := true } ext fuel
      = { state := { s with stop_signals := { keyboard_stop_signal := false,
                                              manager_stop_signal := false } }
          trace := [Ev.store_false]
          exit := ExitKind.fuelOut } := by
  constructor
  · rfl
  · rw [InnerState.custom_effect,
        ceLoop_empty_steps_loop ext { effect_steps := [], should_loop := true } rfl rfl fuel]
    rfl

/-- C9: when the custom-effect runner exits through the cancellation branch it
does not clear the stop signals on the way out: both flags are `true` in the
returned state, the only `store_false` of the run is the one at entry (the
trace after the entry event contains no flag write), and the flags are cleared
again only because the next dispatched command — whatever it is — begins with
`store_false`. -/
theorem c9_cancelled_exit_leaves_flags_set (s : InnerState) (ce : CustomEffect)
    (ext : Nat → Bool) (fuel : Nat)
    (h : (InnerState.custom_effect s ce ext fuel).exit = ExitKind.cancelled) :
    (InnerState.custom_effect s ce ext fuel).state.stop_signals
        = { keyboard_stop_signal := true, manager_stop_signal := true }
    ∧ Ev.store_false ∉ (InnerState.custom_effect s ce ext fuel).trace.tail
    ∧ Ev.store_true ∉ (InnerState.custom_effect s ce ext fuel).trace.tail
    ∧ (∀ (ext2 : Nat → Bool) (fuel2 : Nat) (m : Message) (r : RunOut),
        dispatch (InnerState.custom_effect s ce ext fuel).state ext2 fuel2 m = some r →
        r.trace.head? = some Ev.store_false) := by
  have h' : (ceLoop ext ce s.stop_signals.store_false 0 fuel).exit = ExitKind.cancelled := h
  have hfl := ceLoop_cancelled_flags ext ce fuel s.stop_signals.store_false 0 rfl h'
  have hev := ceLoop_no_flag_events ext ce fuel s.stop_signals.store_false 0
  exact ⟨by simp [InnerState.custom_effect, hfl],
         by simpa [InnerState.custom_effect] using hev.1,
         by simpa [InnerState.custom_effect] using hev.2,
         fun ext2 fuel2 m r hr => dispatch_trace_head _ ext2 fuel2 m r hr⟩

/-- C9 witness: a concrete cancelled run leaves both flags raised. -/
theorem c9_witness :
    (InnerState.custom_effect InnerState.init ceTwoSteps extAtOne 1).exit = ExitKind.cancelled
    ∧ (InnerState.custom_effect InnerState.init ceTwoSteps extAtOne 1).state.stop_signals
        = { keyboard_stop_signal := true, manager_stop_signal := true } :=
  ⟨by decide,
   (c9_cancelled_exit_leaves_flags_set InnerState.init ceTwoSteps extAtOne 1 (by decide)).1⟩

/-- C10: for a `Profile` dispatch whose effect is `SmoothWave`, the recorded
`last_profile` keeps the caller-supplied `rgb_array` unchanged — the forced
palette lives only in `set_profile`'s by-value copy — and a subsequent
`Refresh` passes the original profile back through `set_profile`, producing
the identical trace, in which the Swipe delegation again carries the
re-forced palette. -/
theorem c10_last_profile_keeps_caller_rgb (s : InnerState) (p : Profile)
    (ext : Nat → Bool) (fuel : Nat) (h : p.effect = Effects.smoothWave) :
    (InnerState.set_profile { s with last_profile := p } p).state.last_profile = p
    ∧ (InnerState.set_profile { s with last_profile := p } p).state.last_profile.rgb_array
        = p.rgb_array
    ∧ dispatch (InnerState.set_profile { s with last_profile := p } p).state ext fuel
          Message.refresh
        = some (InnerState.set_profile
            (InnerState.set_profile { s with last_profile := p } p).state p)
    ∧ (InnerState.set_profile
          (InnerState.set_profile { s with last_profile := p } p).state p).trace
        = (InnerState.set_profile { s with last_profile := p } p).trace
    ∧ Ev.driver (DriverCall.swipe { p with rgb_array := smoothWaveRgb })
        ∈ (InnerState.set_profile { s with last_profile := p } p).trace := by
  refine ⟨rfl, rfl, rfl, rfl, ?_⟩
  rw [set_profile_trace_eq]
  simp [profileBranch, h]

/-- C10 witness: the concrete `SmoothWave` profile with caller colors all 7 is
stored unchanged in `last_profile`, while the trace's Swipe delegation carries
the forced palette. -/
theorem c10_witness :
    swProfile.effect = Effects.smoothWave
    ∧ (InnerState.set_profile { InnerState.init with last_profile := swProfile }
          swProfile).state.last_profile = swProfile
    ∧ Ev.driver (DriverCall.swipe { swProfile with rgb_array := smoothWaveRgb })
        ∈ (InnerState.set_profile { InnerState.init with last_profile := swProfile }
            swProfile).trace :=
  ⟨rfl,
   (c10_last_profile_keeps_caller_rgb InnerState.init swProfile extNever 1 rfl).1,
   (c10_last_profile_keeps_caller_rgb InnerState.init swProfile extNever 1 rfl).2.2.2.2⟩
